import Mathlib

/-!
Verification of the configuration-resolution utilities and the wait skill of
the CustomSemanticKernel repository (python sources
`semantic_kernel/utils/settings.py` and
`semantic_kernel/core_skills/wait_skill.py`), shallowly embedded in Lean 4.
-/

/-- A configuration source: a total lookup from a key to its value, or `none`
when the key is absent.  This embeds `dotenv_values(".env").get(key, None)`:
the dotenv reader itself is an external collaborator, so the resolvers are
parametrised by the resulting mapping. -/
def Config : Type := String → Option String

/-- Result record of `openai_settings_from_dot_env`: the tuple
`(api_key, org_id)` of `settings.py`. -/
structure OpenAISettings where
  api_key : String
  org_id : Option String
deriving Repr, DecidableEq

/-- Result record of `azure_openai_settings_from_dot_env`: the tuple
`(deployment_name, api_key, endpoint)` of `settings.py`. -/
structure AzureOpenAISettings where
  deployment_name : String
  api_key : String
  endpoint : String
deriving Repr, DecidableEq

/-- Embedding of `openai_settings_from_dot_env` from `settings.py`:
reads `OPENAI_API_KEY` and `OPENAI_ORG_ID` with default `None`, asserts the
api key is not `None` (error message of the failed assert), and returns the
pair.  The org id is passed through unchecked. -/
def openai_settings_from_dot_env (config : Config) : Except String OpenAISettings :=
  match config "OPENAI_API_KEY" with
  | none => Except.error "OpenAI API key not found in .env file"
  | some api_key => Except.ok ⟨api_key, config "OPENAI_ORG_ID"⟩

/-- Python truthiness-based `deployment or ""` from the return line of
`azure_openai_settings_from_dot_env`: `None` and the empty string are falsy
and yield `""`; any other string yields itself. -/
def pyOrEmptyStr (s : Option String) : String :=
  match s with
  | none => ""
  | some v => if v = "" then "" else v

/-- Embedding of `azure_openai_settings_from_dot_env` from `settings.py`:
reads the three `AZURE_OPENAI_*` keys with default `None`; when
`include_deployment` is true asserts the deployment name is not `None`;
then asserts the api key and the endpoint are not `None` (in that order,
each assert carrying its own message); returns `(deployment or "", api_key,
endpoint)`. -/
def azure_openai_settings_from_dot_env (config : Config)
    (include_deployment : Bool) : Except String AzureOpenAISettings :=
  if include_deployment && (config "AZURE_OPENAI_DEPLOYMENT_NAME").isNone then
    Except.error "Azure OpenAI deployment name not found in .env file"
  else
    match config "AZURE_OPENAI_API_KEY" with
    | none => Except.error "Azure OpenAI API key not found in .env file"
    | some api_key =>
      match config "AZURE_OPENAI_ENDPOINT" with
      | none => Except.error "Azure OpenAI endpoint not found in .env file"
      | some endpoint =>
        Except.ok ⟨pyOrEmptyStr (config "AZURE_OPENAI_DEPLOYMENT_NAME"),
                   api_key, endpoint⟩

/-- Whitespace characters stripped by the host language before numeric
conversion. -/
def isPySpace (c : Char) : Bool :=
  c = ' ' || c = '\t' || c = '\n' || c = '\r' || c = '\x0b' || c = '\x0c'

/-- Value of a list of decimal digit characters read as a natural number. -/
def digitsToNat (ds : List Char) : Nat :=
  ds.foldl (fun a c => a * 10 + (c.toNat - 48)) 0

/-- Consume an optional leading sign; returns whether it was `-` and the
rest. -/
def parseSign : List Char → Bool × List Char
  | '-' :: rest => (true, rest)
  | '+' :: rest => (false, rest)
  | cs => (false, cs)

/-- Exponent part of a decimal numeral: optional sign then digits, which must
exhaust the input; yields the sign and the exponent magnitude. -/
def pyExpPart (cs : List Char) : Option (Bool × Nat) :=
  let (neg, cs1) := parseSign cs
  let ed := cs1.takeWhile Char.isDigit
  let cs2 := cs1.dropWhile Char.isDigit
  if ed.isEmpty || !cs2.isEmpty then none
  else some (neg, digitsToNat ed)

/-- The rational value `±(ip.fp) * 10^(±e)` of a decimal numeral with sign
`neg`, integer digits `ip`, fraction digits `fp` and exponent sign `eneg`
and magnitude `e`, built as one quotient of integers. -/
def decValue (neg : Bool) (ip fp : List Char) (eneg : Bool) (e : Nat) : ℚ :=
  let n : Int := (digitsToNat (ip ++ fp) : Int)
  let m : Int := if neg then -n else n
  if eneg then mkRat m (10 ^ (fp.length + e))
  else mkRat (m * (10 : Int) ^ e) (10 ^ fp.length)

/-- Core of the numeral grammar accepted by the host language's float
conversion, on an already whitespace-stripped character list:
`[sign] (digits [. digits] | . digits) [(e|E) [sign] digits]`. -/
def pyFloatCore (cs : List Char) : Option ℚ :=
  let (neg, cs1) := parseSign cs
  let ip := cs1.takeWhile Char.isDigit
  let cs2 := cs1.dropWhile Char.isDigit
  let (fp, cs3) :=
    match cs2 with
    | '.' :: rest => (some (rest.takeWhile Char.isDigit),
                      rest.dropWhile Char.isDigit)
    | _ => (none, cs2)
  if ip.isEmpty && (fp.getD []).isEmpty then none
  else
    match cs3 with
    | [] => some (decValue neg ip (fp.getD []) false 0)
    | 'e' :: rest =>
      (pyExpPart rest).map (fun p => decValue neg ip (fp.getD []) p.1 p.2)
    | 'E' :: rest =>
      (pyExpPart rest).map (fun p => decValue neg ip (fp.getD []) p.1 p.2)
    | _ => none

/-- Model of the host language's string-to-float conversion used by
`WaitSkill.wait`, restricted to finite decimal numerals and valued in the
rationals: strips surrounding whitespace and parses a signed decimal numeral
with optional fraction and exponent; any other input fails (the `ValueError`
branch).  Non-finite spellings (infinities, NaN) are outside the rational
model. -/
def pyFloat (s : String) : Option ℚ :=
  pyFloatCore (((s.data.dropWhile isPySpace).reverse.dropWhile isPySpace).reverse)

namespace WaitSkill

/-- Embedding of `WaitSkill.wait` from `wait_skill.py`: parse `seconds_text`
as a float; on failure raise `ValueError "seconds text must be a number"`
(no sleep occurs); on success clamp with `max(·, 0)` and sleep for the
result.  The `ok` value is the duration handed to `asyncio.sleep`; an
`error` result means no sleep was started. -/
def wait (seconds_text : String) : Except String ℚ :=
  match pyFloat seconds_text with
  | none => Except.error "seconds text must be a number"
  | some seconds => Except.ok (max seconds 0)

end WaitSkill

-- Concrete configuration sources used as witnesses and counterexamples.

/-- The entirely empty configuration source. -/
def cfgEmpty : Config := fun _ => none

/-- Source where `OPENAI_API_KEY` is present but set to the empty string. -/
def cfgOpenAIEmptyKey : Config :=
  fun k => if k = "OPENAI_API_KEY" then some "" else none

/-- Source with a full OpenAI configuration. -/
def cfgOpenAIFull : Config :=
  fun k => if k = "OPENAI_API_KEY" then some "sk-abc"
           else if k = "OPENAI_ORG_ID" then some "org-1" else none

/-- Source with a full Azure configuration. -/
def cfgAzureFull : Config :=
  fun k => if k = "AZURE_OPENAI_DEPLOYMENT_NAME" then some "dp"
           else if k = "AZURE_OPENAI_API_KEY" then some "ak"
           else if k = "AZURE_OPENAI_ENDPOINT" then some "ep" else none

/-- Azure source whose deployment name is present but empty. -/
def cfgAzureEmptyDeployment : Config :=
  fun k => if k = "AZURE_OPENAI_DEPLOYMENT_NAME" then some ""
           else if k = "AZURE_OPENAI_API_KEY" then some "ak"
           else if k = "AZURE_OPENAI_ENDPOINT" then some "ep" else none

/-- Azure source with the deployment name absent, the other two present. -/
def cfgAzureNoDeployment : Config :=
  fun k => if k = "AZURE_OPENAI_API_KEY" then some "ak"
           else if k = "AZURE_OPENAI_ENDPOINT" then some "ep" else none

deriving instance DecidableEq for Except

example : pyFloat "5" = some 5 := by decide
example : pyFloat "-3" = some (-3) := by decide
example : pyFloat "abc" = none := by rfl
example : pyFloat " 1.5e2 " = some 150 := by decide
example : pyFloat ".5" = some (mkRat 1 2) := by decide
example : pyFloat "5." = some 5 := by decide
example : pyFloat "." = none := by rfl
example : pyFloat "" = none := by rfl

-- Claim theorems.

/-- Counterexample to claim C1 as stated: a source whose `OPENAI_API_KEY` is
present but equal to the empty string does not make the resolver fail; the
resolution succeeds and returns the empty key. -/
theorem openai_claim_empty_key_counterexample :
    openai_settings_from_dot_env cfgOpenAIEmptyKey = Except.ok ⟨"", none⟩ := by
  rfl

/-- C1 (amended): the OpenAI resolver fails exactly when `OPENAI_API_KEY` is
absent from the configuration source (hence in particular on the entirely
empty source); an empty-string value is accepted.  The absence of
`OPENAI_ORG_ID` is never an error: the outcome depends only on the api key
lookup. -/
theorem openai_resolver_error_iff_api_key_absent (config : Config) :
    (∃ msg, openai_settings_from_dot_env config = Except.error msg) ↔
      config "OPENAI_API_KEY" = none := by
  cases h : config "OPENAI_API_KEY" with
  | none => simp [openai_settings_from_dot_env, h]
  | some v => simp [openai_settings_from_dot_env, h]

/-- C2: whenever `OPENAI_API_KEY` is present and non-empty, the OpenAI
resolver succeeds and returns exactly that key together with exactly the
`OPENAI_ORG_ID` value of the source (absent when that key is not set). -/
theorem openai_resolver_returns_exact_values (config : Config) (k : String)
    (hk : config "OPENAI_API_KEY" = some k) (hne : k ≠ "") :
    openai_settings_from_dot_env config =
      Except.ok ⟨k, config "OPENAI_ORG_ID"⟩ := by
  simp [openai_settings_from_dot_env, hk]

/-- Witness for C2 at a concrete full OpenAI source. -/
theorem openai_resolver_returns_exact_values_witness :
    openai_settings_from_dot_env cfgOpenAIFull =
      Except.ok ⟨"sk-abc", some "org-1"⟩ :=
  openai_resolver_returns_exact_values cfgOpenAIFull "sk-abc" rfl (by decide)

/-- Counterexample to claim C3 as stated: with `includeDeployment = true` and
all three Azure keys present but the deployment name equal to the empty
string, the resolver does not fail — presence alone is checked, emptiness is
not. -/
theorem azure_claim_nonempty_counterexample :
    azure_openai_settings_from_dot_env cfgAzureEmptyDeployment true =
      Except.ok ⟨"", "ak", "ep"⟩ := by
  rfl

/-- C3 (amended): with `includeDeployment = true` the Azure resolver fails
exactly when one of the three keys is absent (present-but-empty values are
accepted), and whenever all three keys are present it succeeds and returns
the three exact values. -/
theorem azure_resolver_include_deployment_characterisation (config : Config) :
    ((∃ msg, azure_openai_settings_from_dot_env config true = Except.error msg)
      ↔ (config "AZURE_OPENAI_DEPLOYMENT_NAME" = none ∨
         config "AZURE_OPENAI_API_KEY" = none ∨
         config "AZURE_OPENAI_ENDPOINT" = none)) ∧
    (∀ d k e, config "AZURE_OPENAI_DEPLOYMENT_NAME" = some d →
      config "AZURE_OPENAI_API_KEY" = some k →
      config "AZURE_OPENAI_ENDPOINT" = some e →
      azure_openai_settings_from_dot_env config true = Except.ok ⟨d, k, e⟩) := by
  constructor
  · cases hd : config "AZURE_OPENAI_DEPLOYMENT_NAME" <;>
    cases hk : config "AZURE_OPENAI_API_KEY" <;>
    cases he : config "AZURE_OPENAI_ENDPOINT" <;>
    simp [azure_openai_settings_from_dot_env, hd, hk, he]
  · intro d k e hd hk he
    by_cases hde : d = "" <;>
      simp [azure_openai_settings_from_dot_env, hd, hk, he, pyOrEmptyStr, hde]

/-- Witness for C3 (amended) at a concrete full Azure source. -/
theorem azure_resolver_include_deployment_characterisation_witness :
    azure_openai_settings_from_dot_env cfgAzureFull true =
      Except.ok ⟨"dp", "ak", "ep"⟩ :=
  (azure_resolver_include_deployment_characterisation cfgAzureFull).2
    "dp" "ak" "ep" rfl rfl rfl

/-- C4: with `includeDeployment = false`, a source with no deployment name
but with api key and endpoint present resolves successfully, and the
returned `deployment_name` is the empty string (a string, never an absent
value — the result type carries a plain string field). -/
theorem azure_resolver_flag_false_defaults_deployment_empty (config : Config)
    (k e : String)
    (hd : config "AZURE_OPENAI_DEPLOYMENT_NAME" = none)
    (hk : config "AZURE_OPENAI_API_KEY" = some k)
    (he : config "AZURE_OPENAI_ENDPOINT" = some e) :
    azure_openai_settings_from_dot_env config false = Except.ok ⟨"", k, e⟩ := by
  simp [azure_openai_settings_from_dot_env, hd, hk, he, pyOrEmptyStr]

/-- Witness for C4 at a concrete source lacking only the deployment name. -/
theorem azure_resolver_flag_false_defaults_deployment_empty_witness :
    azure_openai_settings_from_dot_env cfgAzureNoDeployment false =
      Except.ok ⟨"", "ak", "ep"⟩ :=
  azure_resolver_flag_false_defaults_deployment_empty cfgAzureNoDeployment
    "ak" "ep" rfl rfl rfl

/-- C5: for both values of the `includeDeployment` flag, the Azure resolver
fails when `AZURE_OPENAI_API_KEY` is absent, and likewise when
`AZURE_OPENAI_ENDPOINT` is absent: the flag never relaxes the api-key or
endpoint requirement. -/
theorem azure_resolver_requires_api_key_and_endpoint (config : Config)
    (b : Bool) :
    (config "AZURE_OPENAI_API_KEY" = none →
      ∃ msg, azure_openai_settings_from_dot_env config b = Except.error msg) ∧
    (config "AZURE_OPENAI_ENDPOINT" = none →
      ∃ msg, azure_openai_settings_from_dot_env config b = Except.error msg) := by
  constructor <;>
    intro h <;>
    cases b <;>
    cases hd : config "AZURE_OPENAI_DEPLOYMENT_NAME" <;>
    cases hk : config "AZURE_OPENAI_API_KEY" <;>
    cases he : config "AZURE_OPENAI_ENDPOINT" <;>
    simp_all [azure_openai_settings_from_dot_env]

/-- Witness for C5 at the empty source with the flag set to false. -/
theorem azure_resolver_requires_api_key_and_endpoint_witness :
    ∃ msg, azure_openai_settings_from_dot_env cfgEmpty false =
      Except.error msg :=
  (azure_resolver_requires_api_key_and_endpoint cfgEmpty false).1 rfl

/-- C6: with `includeDeployment = true`, validation is fail-fast in the
fixed order deployment name, api key, endpoint: the first absent field in
that order determines the single reported error message; in particular with
all three keys absent the error reports the deployment name. -/
theorem azure_resolver_fail_fast_order (config : Config) :
    (config "AZURE_OPENAI_DEPLOYMENT_NAME" = none →
      azure_openai_settings_from_dot_env config true =
        Except.error "Azure OpenAI deployment name not found in .env file") ∧
    (∀ d, config "AZURE_OPENAI_DEPLOYMENT_NAME" = some d →
      config "AZURE_OPENAI_API_KEY" = none →
      azure_openai_settings_from_dot_env config true =
        Except.error "Azure OpenAI API key not found in .env file") ∧
    (∀ d k, config "AZURE_OPENAI_DEPLOYMENT_NAME" = some d →
      config "AZURE_OPENAI_API_KEY" = some k →
      config "AZURE_OPENAI_ENDPOINT" = none →
      azure_openai_settings_from_dot_env config true =
        Except.error "Azure OpenAI endpoint not found in .env file") := by
  refine ⟨fun hd => ?_, fun d hd hk => ?_, fun d k hd hk he => ?_⟩
  · simp [azure_openai_settings_from_dot_env, hd]
  · simp [azure_openai_settings_from_dot_env, hd, hk]
  · simp [azure_openai_settings_from_dot_env, hd, hk, he]

/-- Witness for C6 at the entirely empty source: with all three keys absent
the reported error is the deployment-name message. -/
theorem azure_resolver_fail_fast_order_witness :
    azure_openai_settings_from_dot_env cfgEmpty true =
      Except.error "Azure OpenAI deployment name not found in .env file" :=
  (azure_resolver_fail_fast_order cfgEmpty).1 rfl

/-- C7: on any input that does not parse as a number, `wait` fails with
exactly the fixed message `"seconds text must be a number"`, and no sleep is
started on this path: the result is never an `ok` duration. -/
theorem wait_invalid_input_fails_without_sleep (s : String)
    (h : pyFloat s = none) :
    WaitSkill.wait s = Except.error "seconds text must be a number" ∧
    ∀ q : ℚ, WaitSkill.wait s ≠ Except.ok q := by
  refine ⟨by simp [WaitSkill.wait, h], fun q hq => ?_⟩
  simp [WaitSkill.wait, h] at hq

/-- Witness for C7 at the non-numeric input `"abc"`. -/
theorem wait_invalid_input_fails_without_sleep_witness :
    WaitSkill.wait "abc" = Except.error "seconds text must be a number" :=
  (wait_invalid_input_fails_without_sleep "abc" (by decide)).1

/-- C8: on any input that parses as a number `x`, `wait` raises no error and
sleeps for `max x 0`: the duration is always nonnegative, and a negative
parsed value yields a duration of exactly `0` rather than an error. -/
theorem wait_clamps_duration_nonneg (s : String) (x : ℚ)
    (h : pyFloat s = some x) :
    WaitSkill.wait s = Except.ok (max x 0) ∧ 0 ≤ max x 0 ∧
    (x < 0 → WaitSkill.wait s = Except.ok 0) := by
  refine ⟨by simp [WaitSkill.wait, h], le_max_right x 0, fun hx => ?_⟩
  simp [WaitSkill.wait, h, max_eq_right hx.le]

/-- Witness for C8 at the negative numeric input `"-3"`: the parsed value is
`-3` and the slept duration is exactly `0`. -/
theorem wait_clamps_duration_nonneg_witness :
    WaitSkill.wait "-3" = Except.ok 0 :=
  (wait_clamps_duration_nonneg "-3" (-3) (by decide)).2.2 (by decide)

/-- C9: with `includeDeployment = false`, a deployment name that is present
and non-empty is still returned exactly in the result: the flag only
disables the requirement, it never blanks a present deployment name. -/
theorem azure_resolver_flag_false_keeps_deployment (config : Config)
    (d k e : String)
    (hd : config "AZURE_OPENAI_DEPLOYMENT_NAME" = some d) (hdne : d ≠ "")
    (hk : config "AZURE_OPENAI_API_KEY" = some k)
    (he : config "AZURE_OPENAI_ENDPOINT" = some e) :
    azure_openai_settings_from_dot_env config false = Except.ok ⟨d, k, e⟩ := by
  simp [azure_openai_settings_from_dot_env, hd, hk, he, pyOrEmptyStr, hdne]

/-- Witness for C9 at a concrete full Azure source with the flag false. -/
theorem azure_resolver_flag_false_keeps_deployment_witness :
    azure_openai_settings_from_dot_env cfgAzureFull false =
      Except.ok ⟨"dp", "ak", "ep"⟩ :=
  azure_resolver_flag_false_keeps_deployment cfgAzureFull "dp" "ak" "ep"
    rfl (by decide) rfl rfl

/-- C10: key lookups are total (an absent key yields the internal `none`
marker, never a lookup error), so on every configuration source and flag the
only possible outcomes of the two resolvers are a success or one of their
explicitly raised missing-credential errors — no other error path exists. -/
theorem resolvers_only_explicit_failures (config : Config) (b : Bool) :
    ((∃ r, openai_settings_from_dot_env config = Except.ok r) ∨
      openai_settings_from_dot_env config =
        Except.error "OpenAI API key not found in .env file") ∧
    ((∃ r, azure_openai_settings_from_dot_env config b = Except.ok r) ∨
      azure_openai_settings_from_dot_env config b =
        Except.error "Azure OpenAI deployment name not found in .env file" ∨
      azure_openai_settings_from_dot_env config b =
        Except.error "Azure OpenAI API key not found in .env file" ∨
      azure_openai_settings_from_dot_env config b =
        Except.error "Azure OpenAI endpoint not found in .env file") := by
  constructor
  · cases h : config "OPENAI_API_KEY" <;>
      simp [openai_settings_from_dot_env, h]
  · cases b <;>
    cases hd : config "AZURE_OPENAI_DEPLOYMENT_NAME" <;>
    cases hk : config "AZURE_OPENAI_API_KEY" <;>
    cases he : config "AZURE_OPENAI_ENDPOINT" <;>
    simp [azure_openai_settings_from_dot_env, hd, hk, he]
